import Mathlib

/-
  Verification development for the travel-recommendation pipeline
  (main.py, generate_travel_recommendation_withoutLangGraph.py,
  outfit_planner.py, outfit_recommendation.py, get_products_from_RAG.py,
  get_local_events_info.py, get_weather_info.py).

  The Python code is shallowly embedded: JSON-like Python values become the
  inductive type PyVal; Python dicts become association lists; Python floats
  are modelled by exact rationals (a comment marks each place where binary
  floating point could differ from exact arithmetic at a rounding boundary);
  external collaborators (LLM calls, HTTP requests, the system clock, the
  environment) are oracle parameters.
-/

/-- Python value model: the subset of Python runtime values that flows through
the pipeline (None, bool, int, float-as-rational, str, list, dict). -/
inductive PyVal where
  | pynone
  | pybool (b : Bool)
  | pyint (n : Int)
  | pyrat (q : ℚ)
  | pystr (s : String)
  | pylist (xs : List PyVal)
  | pydict (kvs : List (String × PyVal))

/-- Python dicts with string keys, as association lists (first match wins). -/
abbrev Dict := List (String × PyVal)

/-- Python truthiness of a value (bool(v)). -/
def truthy : PyVal → Bool
  | .pynone => false
  | .pybool b => b
  | .pyint n => !(n == 0)
  | .pyrat q => !(q == 0)
  | .pystr s => !(s == "")
  | .pylist xs => !xs.isEmpty
  | .pydict kvs => !kvs.isEmpty

/-- Python `a or b`: the left value when truthy, otherwise the right value. -/
def pyOr (a b : PyVal) : PyVal := if truthy a then a else b

/-- Python `d.get(k)` with default None. -/
def dictGet (d : Dict) (k : String) : PyVal :=
  match d.find? (fun kv => kv.1 == k) with
  | some kv => kv.2
  | none => .pynone

/-- Whether the dict has the key at all (present key with value None included). -/
def hasKey (d : Dict) (k : String) : Bool := d.any (fun kv => kv.1 == k)

/-- Remove a key from a dict. -/
def eraseKey (d : Dict) (k : String) : Dict := d.filter (fun kv => !(kv.1 == k))

/-- Python `d[k] = v`: replace in place when the key exists, append otherwise. -/
def dictSet (d : Dict) (k : String) (v : PyVal) : Dict :=
  if hasKey d k then d.map (fun kv => if kv.1 == k then (k, v) else kv)
  else d ++ [(k, v)]

/-- View a value as a dict; non-dicts give the empty dict.  The source would
raise an uncaught AttributeError on a non-dict here, so this branch is only
exercised on well-formed payloads. -/
def asDict : PyVal → Dict
  | .pydict kvs => kvs
  | _ => []

/-- View a value as a string; non-strings give "".  Call sites correspond to
places where the source would raise on a non-string argument. -/
def strOf : PyVal → String
  | .pystr s => s
  | _ => ""

/-- Python `v is None`. -/
def isNone : PyVal → Bool
  | .pynone => true
  | _ => false

/-- Python `v == s` for a string literal s: non-strings compare unequal. -/
def pyEqStrB (v : PyVal) (s : String) : Bool :=
  match v with
  | .pystr t => t == s
  | _ => false

/-- Split a character list on a separator character. -/
def splitChars (sep : Char) : List Char → List (List Char)
  | [] => [[]]
  | c :: cs =>
    let r := splitChars sep cs
    if c == sep then [] :: r
    else
      match r with
      | h :: t => (c :: h) :: t
      | [] => [[c]]

/-- Python s.split(sep) for a one-character separator. -/
def splitOnChar (s : String) (sep : Char) : List String :=
  (splitChars sep s.toList).map String.mk

/-- Decimal digit value of a character, if any. -/
def charDigit (c : Char) : Option Nat :=
  if '0' ≤ c && c ≤ '9' then some (c.toNat - '0'.toNat) else none

def strToNatAux : List Char → Nat → Option Nat
  | [], acc => some acc
  | c :: cs, acc =>
    match charDigit c with
    | some d => strToNatAux cs (acc * 10 + d)
    | none => none

/-- Parse a non-empty all-digit string as a natural number (the numeric-field
parse of strptime and of Python int()). -/
def strToNat (s : String) : Option Nat :=
  match s.toList with
  | [] => none
  | l => strToNatAux l 0

/-- Python int(s) for integer literals: optional sign, then digits. -/
def strToInt (s : String) : Option Int :=
  match s.toList with
  | '-' :: rest =>
    match strToNat (String.mk rest) with
    | some n => some (-(n : Int))
    | none => none
  | _ =>
    match strToNat s with
    | some n => some (n : Int)
    | none => none

/-- Python `int(v)`: none on the values where int() raises. -/
def pyIntOf : PyVal → Option Int
  | .pyint n => some n
  | .pybool b => some (if b then 1 else 0)
  | .pyrat q => some (if 0 ≤ q then q.floor else -((-q).floor))
  | .pystr s => strToInt s
  | _ => none

/-- Check whether the pattern list occurs at the head of the haystack list. -/
def leadMatch : List Char → List Char → Bool
  | _, [] => true
  | [], _ :: _ => false
  | c :: cs, d :: ds => c == d && leadMatch cs ds

/-- Helper for substring search over character lists. -/
def subAux : List Char → List Char → Bool
  | [], pat => pat.isEmpty
  | c :: cs, pat => leadMatch (c :: cs) pat || subAux cs pat

/-- Python `pat in hay` for strings: substring containment. -/
def containsSub (hay pat : String) : Bool := subAux hay.toList pat.toList

/-- Truthiness of an optional string (Python None or ""). -/
def truthyOS : Option String → Bool
  | none => false
  | some s => !(s == "")

/-- Extract the string of a truthy optional (call sites guard with truthyOS). -/
def getS (o : Option String) : String := o.getD ""

/-- Python round(x * p/q) with no digits for an int x scaled by a constant
ratio p/q with q positive: round half to even, in pure integer arithmetic.
Models CPython round() on the exact value; binary floating point can differ
by one unit at an exact .5 boundary, which no proved property relies on. -/
def roundTimes (x p q : Int) : Int :=
  let n := x * p
  let fl := n.fdiv q
  let r := n - fl * q
  if 2 * r < q then fl
  else if q < 2 * r then fl + 1
  else if fl % 2 = 0 then fl else fl + 1

/-- Python round(q) on a rational, half to even (used for weather averages). -/
def pyRoundQ (q : ℚ) : Int := roundTimes q.num 1 (q.den : Int)

/-- Python round(q, 1): round to one decimal digit, half to even. -/
def pyRoundTo1 (q : ℚ) : ℚ := (pyRoundQ (q * 10) : ℚ) / 10

/-- ASCII lowercasing of one character.  Python str.lower() is Unicode aware;
every keyword the pipeline compares against is ASCII, so ASCII folding is the
behaviour the claims exercise. -/
def lowerChar (c : Char) : Char :=
  if 'A' ≤ c && c ≤ 'Z' then Char.ofNat (c.toNat + 32) else c

/-- Python s.lower() (ASCII folding, see lowerChar). -/
def lowerStr (s : String) : String := String.mk (s.toList.map lowerChar)

/-- Python float(s) for plain decimal literals (optional sign, optional
fractional part).  Scientific notation and other float() spellings are not
used by this repository. -/
def ratParseNonneg (t : String) : Option ℚ :=
  match splitOnChar t '.' with
  | [w] => (strToNat w).map (fun n => (n : ℚ))
  | [w, f] =>
    match strToNat w, strToNat f with
    | some wn, some fn => some ((wn : ℚ) + (fn : ℚ) / ((10 : ℚ) ^ f.length))
    | _, _ => none
  | _ => none

def ratParse (s : String) : Option ℚ :=
  let t := s.trim
  match t.toList with
  | '-' :: rest => (ratParseNonneg (String.mk rest)).map Neg.neg
  | _ => ratParseNonneg t

/-- Python float(v) semantics on PyVal (raising cases give none). -/
def floatOfPy : PyVal → Option ℚ
  | .pyint n => some (n : ℚ)
  | .pyrat q => some q
  | .pybool b => some (if b then 1 else 0)
  | .pystr s => ratParse s
  | _ => none

mutual
/-- Python repr(v). -/
def pyRepr : PyVal → String
  | .pynone => "None"
  | .pybool b => if b then "True" else "False"
  | .pyint n => toString n
  | .pyrat q => toString q
  | .pystr s => "\x27" ++ s ++ "\x27"
  | .pylist xs => "[" ++ pyReprList xs ++ "]"
  | .pydict kvs => "\x7b" ++ pyReprKVs kvs ++ "\x7d"

def pyReprList : List PyVal → String
  | [] => ""
  | [x] => pyRepr x
  | x :: y :: xs => pyRepr x ++ ", " ++ pyReprList (y :: xs)

def pyReprKVs : List (String × PyVal) → String
  | [] => ""
  | [kv] => "\x27" ++ kv.1 ++ "\x27: " ++ pyRepr kv.2
  | kv :: kw :: kvs => "\x27" ++ kv.1 ++ "\x27: " ++ pyRepr kv.2 ++ ", " ++ pyReprKVs (kw :: kvs)
end

/-- Python str(v): like repr except that a top-level string is unquoted. -/
def pyStr : PyVal → String
  | .pystr s => s
  | v => pyRepr v

mutual
/-- Structural value equality, modelling Python == on these values. -/
def pyEqB : PyVal → PyVal → Bool
  | .pynone, .pynone => true
  | .pybool a, .pybool b => a == b
  | .pyint a, .pyint b => a == b
  | .pyrat a, .pyrat b => a == b
  | .pystr a, .pystr b => a == b
  | .pylist a, .pylist b => pyEqListB a b
  | .pydict a, .pydict b => pyEqKVsB a b
  | _, _ => false

def pyEqListB : List PyVal → List PyVal → Bool
  | [], [] => true
  | a :: as_, b :: bs => pyEqB a b && pyEqListB as_ bs
  | _, _ => false

def pyEqKVsB : List (String × PyVal) → List (String × PyVal) → Bool
  | [], [] => true
  | a :: as_, b :: bs => (a.1 == b.1) && pyEqB a.2 b.2 && pyEqKVsB as_ bs
  | _, _ => false
end

/-- Membership with pyEqB, for Python set semantics. -/
def pyMem (v : PyVal) (l : List PyVal) : Bool := l.any (pyEqB v)

/-- Distinct values of a list (Python len(set(...)) uses its length). -/
def pyDedup : List PyVal → List PyVal
  | [] => []
  | x :: xs => let rest := pyDedup xs; if pyMem x rest then rest else x :: rest

/-- Calendar date, for the forecast-vs-archive decision in the weather stage. -/
structure Date where
  year : Nat
  month : Nat
  day : Nat
deriving DecidableEq

/-- Strict lexicographic order on dates (start_dt.date() > today.date()). -/
def dateLtB (a b : Date) : Bool :=
  a.year < b.year ||
  (a.year == b.year && (a.month < b.month ||
    (a.month == b.month && a.day < b.day)))

/-- Python datetime.strptime(s, "%Y-%m-%d").date(): three dash-separated
numeric fields with a valid month and day (day-in-month subtleties such as
February 31 are not modelled; no claim involves them). -/
def parseDate (s : String) : Option Date :=
  match splitOnChar s '-' with
  | [ys, ms, ds] =>
    match strToNat ys, strToNat ms, strToNat ds with
    | some y, some m, some d =>
      if 1 ≤ m && m ≤ 12 && 1 ≤ d && d ≤ 31 then some ⟨y, m, d⟩ else none
    | _, _, _ => none
  | _ => none

/-- Python dt.strftime("%B").lower() for a parsed date. -/
def monthNameLower (m : Nat) : String :=
  match m with
  | 1 => "january" | 2 => "february" | 3 => "march" | 4 => "april"
  | 5 => "may" | 6 => "june" | 7 => "july" | 8 => "august"
  | 9 => "september" | 10 => "october" | 11 => "november" | 12 => "december"
  | _ => "unknown"

/-- Geocoding result (geocode_location in main.py lines 397-417), or None when
the lookup fails or raises; the four values come from the geocoding payload
and may individually be None. -/
structure Geo where
  latitude : Option ℚ
  longitude : Option ℚ
  name : Option String
  admin1 : Option String

/-- Daily weather series from the open-meteo response ("daily" object).  The
source reads these lists with .get(key, []) and immediately sums them, so a
payload with non-numeric entries would raise uncaught; well-typed payloads
are assumed. -/
structure DailyData where
  temperature_2m_max : List ℚ
  temperature_2m_min : List ℚ
  precipitation_sum : List ℚ
  precipitation_probability : List ℚ
  weathercode : List Int

/-- Outcome of the open-meteo HTTP call: the call raises (timeout, network
error, bad JSON), or returns a JSON body; the body carries a daily object or
not (a falsy or daily-less body is the second case). -/
inductive FetchResult where
  | raises
  | ok (daily : Option DailyData)

/-- Weather-code to description table (main.py lines 484-491). -/
def codeDescTable : List (Int × String) :=
  [(0, "clear sky"), (1, "mainly clear"), (2, "partly cloudy"), (3, "overcast"),
   (45, "foggy"), (48, "foggy with rime"), (51, "drizzle"), (53, "moderate drizzle"),
   (55, "heavy drizzle"), (61, "rain"), (63, "moderate rain"), (65, "heavy rain"),
   (71, "snow"), (73, "moderate snow"), (75, "heavy snow"), (80, "rain showers"),
   (81, "moderate showers"), (82, "violent showers"), (95, "thunderstorm"),
   (96, "thunderstorm with hail"), (99, "thunderstorm with hail")]

def codeDesc (c : Int) : Option String :=
  (codeDescTable.find? (fun kv => kv.1 == c)).map (fun kv => kv.2)

/-- Hardcoded monthly climatology table (main.py lines 517-530):
(avg_high, avg_low, precip_chance, wind). -/
def climatologyTable : List (String × (Int × Int × Int × String)) :=
  [("april", (12, 6, 40, "moderate")),
   ("may", (17, 10, 35, "light to moderate")),
   ("june", (22, 14, 30, "light")),
   ("july", (24, 16, 25, "light")),
   ("august", (23, 15, 28, "light")),
   ("september", (19, 12, 35, "light to moderate")),
   ("october", (14, 9, 45, "moderate")),
   ("november", (10, 6, 50, "moderate")),
   ("december", (7, 3, 55, "moderate to strong")),
   ("january", (6, 2, 60, "moderate to strong")),
   ("february", (6, 2, 55, "moderate")),
   ("march", (9, 4, 50, "moderate"))]

def climatologyGet (m : String) : Option (Int × Int × Int × String) :=
  (climatologyTable.find? (fun kv => kv.1 == m)).map (fun kv => kv.2)

def pyOfOptRat : Option ℚ → PyVal
  | none => .pynone
  | some q => .pyrat q

/-- Python f-string rendering of a possibly-None string value. -/
def fmtOptStr : Option String → String
  | none => "None"
  | some s => s

/-- Python sum() over a rational list. -/
def sumQ (l : List ℚ) : ℚ := l.foldl (fun a b => a + b) 0

/-- Location label built at main.py line 445. -/
def locationName (geo : Geo) : String :=
  fmtOptStr geo.name ++ (if truthyOS geo.admin1 then "," ++ getS geo.admin1 else "")

/-- Success-path weather summary (main.py lines 471-513). -/
def weatherSuccessDict (geo : Geo) (daily : DailyData) (dataSource : String) : Dict :=
  let temps_max := daily.temperature_2m_max
  let temps_min := daily.temperature_2m_min
  let precip := daily.precipitation_sum
  let codes := daily.weathercode
  let avg_high : PyVal :=
    if !temps_max.isEmpty then .pyrat (pyRoundTo1 (sumQ temps_max / (temps_max.length : ℚ))) else .pynone
  let avg_low : PyVal :=
    if !temps_min.isEmpty then .pyrat (pyRoundTo1 (sumQ temps_min / (temps_min.length : ℚ))) else .pynone
  let total_precip : PyVal :=
    if !precip.isEmpty then .pyrat (pyRoundTo1 (sumQ precip)) else .pyint 0
  let precip_chance : PyVal :=
    if !precip.isEmpty then
      .pyrat (pyRoundTo1 (((precip.countP (fun p => 0 < p)) : ℚ) / (precip.length : ℚ) * 100))
    else .pyint 0
  let weather_desc : String :=
    match codes.head? with
    | some c => (codeDesc c).getD "variable conditions"
    | none => "variable conditions"
  [("destination", .pystr (locationName geo)),
   ("latitude", pyOfOptRat geo.latitude),
   ("longitude", pyOfOptRat geo.longitude),
   ("avg_high_c", avg_high),
   ("avg_low_c", avg_low),
   ("precipitation_chance", precip_chance),
   ("precipitation_mm", total_precip),
   ("wind_info", .pystr "Moderate winds"),
   ("daylight_hours", .pyrat 12),
   ("weather_description", .pystr weather_desc),
   ("notes", .pystr ("Based on " ++ dataSource ++ " data for " ++ locationName geo ++ ".")),
   ("data_source", .pystr dataSource),
   ("error", .pynone)]

/-- Climatology-fallback weather summary (main.py lines 514-553).  Note the
key set differs from the success path: no precipitation_mm and no
weather_description key. -/
def weatherClimatologyDict (destination : String) (start_date : Option String) : Dict :=
  let month : Option String :=
    match start_date with
    | some s => (parseDate s).map (fun dt => monthNameLower dt.month)
    | none => none
  let seasonal : Int × Int × Int × String :=
    ((month.bind climatologyGet).getD (12, 6, 40, "moderate"))
  [("destination", .pystr destination),
   ("latitude", .pynone),
   ("longitude", .pynone),
   ("avg_high_c", .pyint seasonal.1),
   ("avg_low_c", .pyint seasonal.2.1),
   ("precipitation_chance", .pyint seasonal.2.2.1),
   ("wind_info", .pystr seasonal.2.2.2),
   ("daylight_hours", .pyrat 12),
   ("notes", .pystr ("Using typical climatology for " ++ month.getD "the destination" ++ ". Real-time forecast unavailable.")),
   ("data_source", .pystr "climatology"),
   ("error", .pynone)]

/-- Weather stage: get_weather_context (main.py lines 423-553).  The geocoder
and the open-meteo HTTP call are oracles.  The try block around the date
parse and the HTTP call funnels every exception into response = None, which
selects the climatology fallback. -/
def get_weather_context (geocode : String → Option Geo) (fetch : FetchResult)
    (today : Date) (destination start_date _end_date : Option String) : Dict :=
  if !truthyOS destination then
    [("destination", .pynone),
     ("error", .pystr "No destination provided"),
     ("data_source", .pystr "error")]
  else
    match geocode (getS destination) with
    | none =>
      [("destination", .pystr (getS destination)),
       ("error", .pystr ("Location \x27" ++ getS destination ++ "\x27 not found or geocoding failed")),
       ("data_source", .pystr "error")]
    | some geo =>
      let attempt : Option (Option DailyData × String) :=
        let runFetch := fun (startDt : Date) =>
          let src := if dateLtB today startDt then "forecast" else "historical"
          match fetch with
          | .raises => none
          | .ok daily => some (daily, src)
        match start_date with
        | some s =>
          match parseDate s with
          | none => none
          | some sdt => runFetch sdt
        | none => runFetch today
      match attempt with
      | some (some daily, src) => weatherSuccessDict geo daily src
      | some (none, _) => weatherClimatologyDict (getS destination) start_date
      | none => weatherClimatologyDict (getS destination) start_date

/-- Outcome of the Ticketmaster HTTP call.  The separate SSLError branch of
the source retries once with verification disabled; the retry itself ends in
one of these same outcomes, so the outcomes are collapsed here. -/
inductive TMHttp where
  | raises
  | badJson
  | ok (data : Dict)

/-- Outdoor keyword list for the crude weather-sensitivity detection
(main.py line 993). -/
def outdoorKeywords : List String :=
  ["festival", "fair", "outdoor", "park", "beach", "street", "market"]

/-- Build one event record from a Ticketmaster payload event
(main.py lines 974-1004).  The venue construction is wrapped in try/except in
the source: any shape mismatch there yields venue = None. -/
def buildEventRecord (e : Dict) : Dict :=
  let title := dictGet e "name"
  let url := dictGet e "url"
  let dates := asDict (dictGet e "dates")
  let startD := asDict (dictGet dates "start")
  let start := pyOr (dictGet startD "localDate") (dictGet startD "dateTime")
  let endVal :=
    if truthy (dictGet dates "end") then dictGet (asDict (dictGet dates "end")) "localDate"
    else .pynone
  let desc := pyOr (dictGet e "info") (pyOr (dictGet e "pleaseNote") (.pystr ""))
  let venue : PyVal :=
    match dictGet (asDict (dictGet e "_embedded")) "venues" with
    | .pylist (v :: _) =>
      let vd := asDict v
      let line1 := dictGet (asDict (dictGet vd "address")) "line1"
      let cityName :=
        if truthy (dictGet vd "city") then dictGet (asDict (dictGet vd "city")) "name"
        else .pynone
      let parts := ([line1, cityName].filter truthy).map strOf
      .pydict [("name", dictGet vd "name"), ("address", .pystr (String.intercalate ", " parts))]
    | _ => .pynone
  let name_desc := strOf (pyOr title (.pystr "")) ++ " " ++ strOf (pyOr desc (.pystr ""))
  let weather_sensitive := outdoorKeywords.any (fun k => containsSub (lowerStr name_desc) k)
  [("title", title),
   ("start", start),
   ("end", endVal),
   ("venue", venue),
   ("url", url),
   ("description", desc),
   ("weather_sensitive", .pybool weather_sensitive)]

/-- Events stage: get_local_events (main.py lines 866-1006, identical logic in
get_local_events_info.py).  The TICKETMASTER_KEY environment variable, the
geocoder and the HTTP call are oracles.  The second component of the result
is the ordered log of network requests the call performs; parameters that
only feed the outgoing query string (dates, radius) are not modelled further.
Non-dict entries in the events array would raise uncaught in the source and
are treated as empty dicts. -/
def get_local_events (tmKey : Option String) (geocode : String → Option Geo)
    (http : TMHttp) (destination _start_date _end_date : Option String)
    (_radius_km : Int) : List Dict × List String :=
  if !truthyOS destination then ([], [])
  else
    match tmKey with
    | none => ([], [])
    | some _ =>
      match geocode (getS destination) with
      | none => ([], ["geocode"])
      | some geo =>
        if !truthy (pyOfOptRat geo.latitude) || !truthy (pyOfOptRat geo.longitude) then
          ([], ["geocode"])
        else
          match http with
          | .raises => ([], ["geocode", "ticketmaster"])
          | .badJson => ([], ["geocode", "ticketmaster"])
          | .ok data =>
            if !truthy (.pydict data) then ([], ["geocode", "ticketmaster"])
            else if truthy (dictGet data "errors") then ([], ["geocode", "ticketmaster"])
            else
              let embedded := dictGet data "_embedded"
              let evs : List PyVal :=
                if truthy embedded then
                  match dictGet (asDict embedded) "events" with
                  | .pylist l => l
                  | _ => []
                else []
              (evs.map (fun e => buildEventRecord (asDict e)), ["geocode", "ticketmaster"])

/-- One activity derived from one event record (main.py lines 1047-1053,
dict case). -/
def activityOfEventDict (ev : Dict) : PyVal :=
  let name := pyOr (dictGet ev "name")
    (pyOr (dictGet ev "title") (pyOr (dictGet ev "summary") (dictGet ev "description")))
  let date := pyOr (dictGet ev "date") (pyOr (dictGet ev "start") (dictGet ev "start_date"))
  .pydict [("type", pyOr name (.pystr "outing")), ("date", date)]

/-- One activity from one element of the events list (main.py lines
1047-1053): dicts are mapped through activityOfEventDict, anything else is
stringified. -/
def activityOfEvent (ev : PyVal) : PyVal :=
  match ev with
  | .pydict kvs => activityOfEventDict kvs
  | v => .pystr (pyStr v)

/-- Keyword group emitting the hike-type fallback activity
(main.py line 1060). -/
def hikeKeywords : List String := ["hike", "hiking", "gym", "yoga", "run", "beach", "swim"]

/-- Activity derivation (main.py lines 1046-1061, identical in
generate_travel_recommendation_withoutLangGraph.py lines 38-53): one activity
per event; when the event-derived list is empty, scan the lowercased raw
request for the two fixed keyword groups. -/
def deriveActivities (events : List PyVal) (userPrompt : String) : List PyVal :=
  let acts := events.map activityOfEvent
  let up := lowerStr userPrompt
  if acts.isEmpty then
    (if containsSub up "dinner" || containsSub up "party" then
      [.pydict [("type", .pystr "dinner")]] else [])
    ++
    (if hikeKeywords.any (fun k => containsSub up k) then
      [.pydict [("type", .pystr "hike")]] else [])
  else acts

/-- Keyword groups of the shared activity classifier.  The planner
(outfit_planner.py lines 53-62) and the LLM variant
(outfit_recommendation.py lines 125-133) define byte-identical classifiers;
one definition models both. -/
def dinnerClassKeywords : List String := ["dinner", "restaurant", "party", "formal", "gala"]

def activityClassKeywords : List String :=
  ["hike", "trek", "ride", "surf", "swim", "gym", "workout", "yoga", "run", "sport", "beach"]

def outdoorClassKeywords : List String :=
  ["sightseeing", "tour", "city", "walk", "explore", "travel", "visit", "day"]

def classify_activity (name : String) : String :=
  let s := lowerStr name
  if dinnerClassKeywords.any (fun k => containsSub s k) then "dinner"
  else if activityClassKeywords.any (fun k => containsSub s k) then "activity"
  else if outdoorClassKeywords.any (fun k => containsSub s k) then "outdoor"
  else "outdoor"

/-- Normalize one activity entry (outfit_planner.py lines 90-97).  A dict
entry becomes a Python literal merge such that an existing "type" key of the
entry, truthy or not, wins over the computed type; entries that are neither
strings nor dicts are skipped. -/
def normalizeActivityRule (a : PyVal) : Option Dict :=
  match a with
  | .pystr s => some [("type", .pystr (classify_activity s)), ("raw", .pystr s)]
  | .pydict kvs =>
    let typ := pyOr (dictGet kvs "type")
      (.pystr (classify_activity (strOf (pyOr (dictGet kvs "name") (pyOr (dictGet kvs "activity") (.pystr ""))))))
    some (("type", if hasKey kvs "type" then dictGet kvs "type" else typ) :: eraseKey kvs "type")
  | _ => none

/-- Activity entries synthesized from events when none were supplied
(outfit_planner.py lines 100-109). -/
def activityFromEventRule (ev : PyVal) : Dict :=
  match ev with
  | .pydict kvs =>
    let name := pyOr (dictGet kvs "name")
      (pyOr (dictGet kvs "title") (pyOr (dictGet kvs "summary") (dictGet kvs "description")))
    let date := pyOr (dictGet kvs "date") (pyOr (dictGet kvs "start") (dictGet kvs "start_date"))
    [("type", .pystr (classify_activity (strOf (pyOr name (.pystr "outing"))))),
     ("raw", name), ("date", date)]
  | v =>
    [("type", .pystr (classify_activity (pyStr v))), ("raw", .pystr (pyStr v))]

/-- Climate inferred from the weather dict (outfit_planner.py lines 111-135):
the first key whose value is present and float-convertible sets the
temperature; otherwise summary keywords decide; otherwise temperate. -/
def firstTempKey : List String → Dict → Option ℚ
  | [], _ => none
  | k :: ks, w =>
    match dictGet w k with
    | .pynone => firstTempKey ks w
    | v =>
      match floatOfPy v with
      | some t => some t
      | none => firstTempKey ks w

def inferClimate (w : Dict) : String :=
  let temp := firstTempKey ["avg_temp", "temperature", "temp", "avg_temperature"] w
  let summary := lowerStr (pyStr (pyOr (dictGet w "summary") (pyOr (dictGet w "description") (.pystr ""))))
  match temp with
  | some t =>
    if 25 ≤ t then "hot"
    else if t ≤ 10 then "cold"
    else "temperate"
  | none =>
    if ["hot", "warm", "heat"].any (fun k => containsSub summary k) then "hot"
    else if ["cold", "snow", "freez", "chill"].any (fun k => containsSub summary k) then "cold"
    else "temperate"

/-- Result of the rule-based planner (outfit_planner.py lines 234-241). -/
structure OutfitRec where
  outdoor_wears : Int
  dinner_wears : Int
  activity_wears : Int
  total_wears : Int
  assumptions : List String
  explanation : String

/-- Intention adjustment block (outfit_planner.py lines 189-202). -/
def applyIntentionAdj (intent : String) (durationDays o d a : Int) : Int × Int × Int :=
  if intent == "minimal" then
    (max 1 (roundTimes o 7 10), max 0 (roundTimes d 7 10), max 0 (roundTimes a 4 5))
  else if intent == "sustainable" then
    (max 1 (roundTimes o 3 5), max 0 (roundTimes d 3 5), max 0 (roundTimes a 7 10))
  else if intent == "fashion" then
    (if 1 < durationDays then (o + 1, d + 1, a) else (o, d, a))
  else (o, d, a)

/-- Laundry adjustment block (outfit_planner.py lines 204-208). -/
def applyLaundryAdj (laundry : Bool) (o d a : Int) : Int × Int × Int :=
  if laundry then
    (max 1 (roundTimes o 3 5), max 0 (roundTimes d 3 5), max 0 (roundTimes a 7 10))
  else (o, d, a)

/-- Climate adjustment block (outfit_planner.py lines 182-186). -/
def applyClimateAdj (climate : Option String) (o d a : Int) : Int × Int × Int :=
  if climate == some "hot" then (o, d, roundTimes a 23 20)
  else if climate == some "cold" then (o, max 1 (roundTimes d 9 10), a)
  else (o, d, a)

/-- Effective trip duration of the rule-based planner (outfit_planner.py
lines 153-161): the given duration when supplied, otherwise the number of
distinct truthy activity dates, at least one. -/
def effectiveDurationRule (duration_days : Option Int) (eventDates : List PyVal) : Int :=
  match duration_days with
  | some d => d
  | none => if !eventDates.isEmpty then max 1 ((pyDedup eventDates).length : Int) else 1

/-- Core count arithmetic of the rule-based planner (outfit_planner.py lines
163-213): base rates, the daily-minimum rule for outdoor wear, then the
climate, intention and laundry adjustments, then the final non-negative
clamps.  Source expressions int(round(1 * d)) and round(int) are the
identity on ints and appear as such. -/
def outfitCore (outdoor_events dinner_events activity_events durationDays : Int)
    (effClimate : Option String) (intentStr : String) (effLaundry : Bool) :
    Int × Int × Int :=
  let o₁ := max outdoor_events durationDays
  let d₁ := max dinner_events (roundTimes durationDays 1 2)
  let a₁ := max activity_events 0
  let o₂ := if o₁ < durationDays then durationDays else o₁
  let t₃ := applyClimateAdj effClimate o₂ d₁ a₁
  let t₄ := applyIntentionAdj intentStr durationDays t₃.1 t₃.2.1 t₃.2.2
  let t₅ := applyLaundryAdj effLaundry t₄.1 t₄.2.1 t₄.2.2
  (max 0 t₅.1, max 0 t₅.2.1, max 0 t₅.2.2)

/-- Rule-based outfit planner: recommend_outfits (outfit_planner.py lines
65-241).  The source also accepts a parsed_intent argument that its body
never reads; it is omitted here.  Integer-by-decimal products such as
round(x * 0.7) are modelled as exact-ratio roundings (see roundTimes). -/
def recommend_outfits (activities : List PyVal) (duration_days : Option Int)
    (intention : Option String) (climate : Option String) (laundry_available : Bool)
    (weather : Option Dict) (events : Option (List PyVal))
    (system_prompt user_message : Option String) : OutfitRec :=
  let parsed₀ := activities.filterMap normalizeActivityRule
  let parsed :=
    if parsed₀.isEmpty then
      match events with
      | some evs => if !evs.isEmpty then evs.map activityFromEventRule else parsed₀
      | none => parsed₀
    else parsed₀
  let effClimate : Option String :=
    match climate with
    | some c => some c
    | none =>
      match weather with
      | some w => if !w.isEmpty then some (inferClimate w) else none
      | none => none
  let textCtx := String.intercalate " "
    (([system_prompt, user_message].filterMap id).filter (fun s => !(s == "")))
  let effLaundry := laundry_available ||
    (!(textCtx == "") && ["laundry", "washer", "wash", "laundromat", "laundry available"].any
      (fun k => containsSub (lowerStr textCtx) k))
  let effIntention : Option String :=
    if (!truthyOS intention || intention == some "balanced") && truthyOS user_message then
      let um := lowerStr (getS user_message)
      if ["minimal pack", "minimal", "pack light", "travel light"].any (fun k => containsSub um k) then
        some "minimal"
      else if ["fashion", "outfits", "stylish", "dress up"].any (fun k => containsSub um k) then
        some "fashion"
      else if ["sustain", "sustainable", "reuse", "eco"].any (fun k => containsSub um k) then
        some "sustainable"
      else intention
    else intention
  let eventDates := parsed.filterMap (fun p =>
    let d := dictGet p "date"
    if truthy d then some d else none)
  let durationDays : Int := effectiveDurationRule duration_days eventDates
  let outdoor_events : Int := (parsed.countP (fun p => pyEqStrB (dictGet p "type") "outdoor") : Int)
  let dinner_events : Int := (parsed.countP (fun p => pyEqStrB (dictGet p "type") "dinner") : Int)
  let activity_events : Int := (parsed.countP (fun p => pyEqStrB (dictGet p "type") "activity") : Int)
  let intentStr := lowerStr (if truthyOS effIntention then getS effIntention else "balanced")
  let counts := outfitCore outdoor_events dinner_events activity_events durationDays
    effClimate intentStr effLaundry
  let o := counts.1
  let d := counts.2.1
  let a := counts.2.2
  let total := o + d + a
  let assumptions :=
    ["Assumed " ++ toString durationDays ++ " day(s) of travel/event.",
     "Outdoor: ~1 per day baseline, reusable when not dirty.",
     "Dinner: counted per explicit evening events; reusable if not soiled.",
     "Activity: one fresh outfit per high-sweat event; may need extras for multi-day activities."]
    ++ (if effLaundry then ["Laundry available mid-trip reduces total needed."] else [])
    ++ (if intentStr == "minimal" || intentStr == "sustainable" then
          ["Intent \x27" ++ intentStr ++ "\x27 prioritizes reuse and fewer items."] else [])
  let explanation := String.intercalate "\n"
    ["Outdoor wears: " ++ toString o ++ " (base + events)",
     "Dinner wears: " ++ toString d ++ " (events & formality)",
     "Activity wears: " ++ toString a ++ " (per high-sweat activity)",
     "Total outfits recommended: " ++ toString total]
  ⟨o, d, a, total, assumptions, explanation⟩

/-- Normalize one activity entry for the LLM planner
(outfit_recommendation.py lines 119-147). -/
def normalizeActivityLlm (a : PyVal) : Option Dict :=
  match a with
  | .pystr s => some [("type", .pystr (classify_activity s)), ("name", .pystr s)]
  | .pydict kvs =>
    let name := pyOr (dictGet kvs "name")
      (pyOr (dictGet kvs "activity") (pyOr (dictGet kvs "type") (.pystr "")))
    let typ := pyOr (dictGet kvs "type") (.pystr (classify_activity (strOf name)))
    some ([("type", typ)] ++ (["name", "date", "time", "intensity"].filterMap (fun k =>
      match dictGet kvs k with
      | .pynone => none
      | v => some (k, v))))
  | _ => none

/-- Python rendering of bools in f-strings. -/
def fmtBool (b : Bool) : String := if b then "True" else "False"

/-- The deterministic arithmetic fallback of the LLM outfit planner
(outfit_recommendation.py lines 291-340), reached whenever the LLM call or
the handling of its output raises. -/
def outfitFallbackHeuristic (activities : List PyVal) (duration_days : Option Int)
    (intention : Option String) (climate : Option String) (laundry_available : Bool) : PyVal :=
  let parsed := activities.filterMap normalizeActivityLlm
  let outdoor_events : Int := (parsed.countP (fun p => pyEqStrB (dictGet p "type") "outdoor") : Int)
  let dinner_events : Int := (parsed.countP (fun p => pyEqStrB (dictGet p "type") "dinner") : Int)
  let activity_events : Int := (parsed.countP (fun p => pyEqStrB (dictGet p "type") "activity") : Int)
  let eventDates := parsed.filterMap (fun p =>
    let d := dictGet p "date"
    if truthy d then some d else none)
  let days : Int :=
    match duration_days with
    | some d => if d == 0 then max 1 ((pyDedup eventDates).length : Int) else d
    | none => max 1 ((pyDedup eventDates).length : Int)
  let bo₁ := max outdoor_events days
  let bd₁ := max dinner_events (roundTimes days 3 5)
  let ba₁ := max activity_events 0
  let intentStr := lowerStr (if truthyOS intention then getS intention else "balanced")
  let (bo₂, bd₂, ba₂) :=
    if intentStr == "minimal" then
      (roundTimes bo₁ 7 10, roundTimes bd₁ 7 10, roundTimes ba₁ 4 5)
    else if intentStr == "fashion" then (bo₁ + 1, bd₁ + 1, ba₁)
    else if intentStr == "sustainable" then
      (roundTimes bo₁ 3 5, roundTimes bd₁ 3 5, roundTimes ba₁ 7 10)
    else (bo₁, bd₁, ba₁)
  let (bo, bd, ba) :=
    if laundry_available then
      (max (roundTimes bo₂ 3 5) 0, max (roundTimes bd₂ 7 10) 0, max (roundTimes ba₂ 7 10) 0)
    else (bo₂, bd₂, ba₂)
  let total := max bo 0 + max bd 0 + max ba 0
  .pydict [
    ("outfit_counts", .pydict [
      ("outdoor_wears", .pyint (max bo 0)),
      ("dinner_wears", .pyint (max bd 0)),
      ("activity_wears", .pyint (max ba 0)),
      ("total_wears", .pyint total)]),
    ("assumptions", .pylist [
      .pystr "Fallback arithmetic used due to LLM error",
      .pystr ("Days=" ++ toString days ++ ", OutdoorEvents=" ++ toString outdoor_events ++
        ", DinnerEvents=" ++ toString dinner_events ++ ", ActivityEvents=" ++ toString activity_events),
      .pystr ("Intention=" ++ fmtOptStr intention ++ ", Laundry=" ++ fmtBool laundry_available ++
        ", Climate=" ++ fmtOptStr climate)]),
    ("explanation", .pystr "Computed via simple heuristics as a backup. Try again for LLM-driven reasoning.")]

/-- Python iteration over a value (used on the assumptions field): lists give
their elements, strings their characters, dicts their keys; other truthy
values raise. -/
def iterElems : PyVal → Option (List PyVal)
  | .pylist l => some l
  | .pystr s => some (s.toList.map (fun c => .pystr (String.mk [c])))
  | .pydict kvs => some (kvs.map (fun kv => .pystr kv.1))
  | _ => none

/-- Guardrail post-validation of the parsed LLM output
(outfit_recommendation.py lines 182-220): none models a raised exception,
which the caller turns into the arithmetic fallback. -/
def post_validate (result : PyVal) : Option PyVal :=
  match result with
  | .pydict kvs =>
    match pyOr (dictGet kvs "outfit_counts") (.pydict []) with
    | .pydict oc =>
      match pyIntOf (pyOr (dictGet oc "outdoor_wears") (.pyint 0)),
            pyIntOf (pyOr (dictGet oc "dinner_wears") (.pyint 0)),
            pyIntOf (pyOr (dictGet oc "activity_wears") (.pyint 0)) with
      | some ow₀, some dw₀, some aw₀ =>
        let ow := max ow₀ 0
        let dw := max dw₀ 0
        let aw := max aw₀ 0
        match pyIntOf (pyOr (dictGet oc "total_wears") (.pyint (ow + dw + aw))) with
        | some t₀ =>
          let total := max t₀ (ow + dw + aw)
          match iterElems (pyOr (dictGet kvs "assumptions") (.pylist [])) with
          | some elems =>
            let assumptions := ((elems.map (fun a => (pyStr a).trim)).filter
              (fun s => !(s == ""))).take 10
            let r₁ := dictSet kvs "outfit_counts" (.pydict [
              ("outdoor_wears", .pyint ow), ("dinner_wears", .pyint dw),
              ("activity_wears", .pyint aw), ("total_wears", .pyint total)])
            let r₂ := dictSet r₁ "assumptions" (.pylist (assumptions.map .pystr))
            let r₃ :=
              if !truthy (dictGet kvs "explanation") then
                dictSet r₂ "explanation" (.pystr "Counts derived from activities, duration, intention, climate, and laundry settings with reasonable reuse.")
              else r₂
            some (.pydict r₃)
          | none => none
        | none => none
      | _, _, _ => none
    | _ => none
  | _ =>
    some (.pydict [
      ("outfit_counts", .pydict [
        ("outdoor_wears", .pyint 0), ("dinner_wears", .pyint 0),
        ("activity_wears", .pyint 0), ("total_wears", .pyint 0)]),
      ("assumptions", .pylist [.pystr "Fallback applied due to invalid LLM output."]),
      ("explanation", .pystr "Defaulted to zeros; please retry.")])

/-- LLM outfit planner: recommend_outfits_llm (outfit_recommendation.py lines
223-340).  The oracle is the parsed structured output of the LLM call: none
when the call raises or its output cannot be parsed as JSON; otherwise the
parsed value, which post-validation may still reject (also leading to the
fallback, because the whole success path sits inside the try block).
Parameters that only feed the outgoing LLM payload (weather, destination,
dates, extra context, model) are not modelled. -/
def recommend_outfits_llm (llm : Option PyVal) (activities : List PyVal)
    (duration_days : Option Int) (intention : Option String)
    (climate : Option String) (laundry_available : Bool) : PyVal :=
  match llm with
  | some v =>
    match post_validate v with
    | some r => r
    | none => outfitFallbackHeuristic activities duration_days intention climate laundry_available
  | none => outfitFallbackHeuristic activities duration_days intention climate laundry_available

/-- Composite retrieval query (main.py lines 642-679, identical in
get_products_from_RAG.py lines 102-139): optional parts appended in fixed
order, then a constant catch-all clause, joined with " | ".  The
recommend_outfits argument is whatever value the caller passes (the pipeline
passes the outfit dict; the f-string stringifies it). -/
def weatherClauseFields (w : Dict) : List String :=
  let w_parts : List String := []
  let w_parts := if !isNone (dictGet w "avg_high_c") then
    w_parts ++ ["avg_high_c: " ++ pyStr (dictGet w "avg_high_c") ++ " C"] else w_parts
  let w_parts := if !isNone (dictGet w "avg_low_c") then
    w_parts ++ ["avg_low_c: " ++ pyStr (dictGet w "avg_low_c") ++ " C"] else w_parts
  let w_parts := if !isNone (dictGet w "precipitation_chance") then
    w_parts ++ ["precipitation_chance: " ++ pyStr (dictGet w "precipitation_chance") ++ "%"] else w_parts
  let w_parts := if truthy (dictGet w "condition") then
    w_parts ++ ["condition: " ++ pyStr (dictGet w "condition")] else w_parts
  w_parts

def build_composite_query (destination season_hint : Option String)
    (weather : Option Dict) (recommend_outfits_arg : PyVal)
    (user_prompt : Option String) : String :=
  let parts : List String := []
  let parts := if truthyOS destination then parts ++ ["destination: " ++ getS destination] else parts
  let parts := if truthyOS season_hint then parts ++ ["season: " ++ getS season_hint] else parts
  let parts :=
    match weather with
    | some w =>
      if !w.isEmpty then
        let w_parts := weatherClauseFields w
        if !w_parts.isEmpty then parts ++ ["weather: " ++ String.intercalate ", " w_parts]
        else parts
      else parts
    | none => parts
  let parts := if truthy recommend_outfits_arg then
    parts ++ ["recommend_outfits: " ++ pyStr recommend_outfits_arg] else parts
  let parts := if truthyOS user_prompt then
    parts ++ ["user_prompt: " ++ getS user_prompt] else parts
  let parts := parts ++ ["context: any products for travel; store details based on destination and weather"]
  String.intercalate " | " parts

/-- Specification-side description of the composite query, written from the
spec: the non-empty parts destination, season hint, weather clause over the
present fields among avg_high_c, avg_low_c, precipitation_chance and
condition, serialized outfit recommendation, raw user prompt, in this fixed
order, followed by the constant catch-all clause. -/
def specWeatherFields (w : Dict) : List String :=
  (if !isNone (dictGet w "avg_high_c") then
    ["avg_high_c: " ++ pyStr (dictGet w "avg_high_c") ++ " C"] else [])
  ++ (if !isNone (dictGet w "avg_low_c") then
       ["avg_low_c: " ++ pyStr (dictGet w "avg_low_c") ++ " C"] else [])
  ++ (if !isNone (dictGet w "precipitation_chance") then
       ["precipitation_chance: " ++ pyStr (dictGet w "precipitation_chance") ++ "%"] else [])
  ++ (if truthy (dictGet w "condition") then
       ["condition: " ++ pyStr (dictGet w "condition")] else [])

def specWeatherClause (weather : Option Dict) : List String :=
  match weather with
  | none => []
  | some w =>
    if w.isEmpty then []
    else
      if (specWeatherFields w).isEmpty then []
      else ["weather: " ++ String.intercalate ", " (specWeatherFields w)]

def specQueryParts (destination season_hint : Option String) (weather : Option Dict)
    (recommend_outfits_arg : PyVal) (user_prompt : Option String) : List String :=
  (if truthyOS destination then ["destination: " ++ getS destination] else [])
  ++ (if truthyOS season_hint then ["season: " ++ getS season_hint] else [])
  ++ specWeatherClause weather
  ++ (if truthy recommend_outfits_arg then
        ["recommend_outfits: " ++ pyStr recommend_outfits_arg] else [])
  ++ (if truthyOS user_prompt then ["user_prompt: " ++ getS user_prompt] else [])
  ++ ["context: any products for travel; store details based on destination and weather"]

/-- Outcome of one Azure Search attempt: the call raises, or returns a
(possibly empty) result list. -/
inductive SearchOutcome where
  | raises
  | returns (docs : List Dict)

mutual
/-- Recursive JSON normalization of one document value (main.py lines
590-606).  On this value model it preserves structure; the datetime and
object-fallback branches of the source have no PyVal counterpart. -/
def normalize_value : PyVal → PyVal
  | .pynone => .pynone
  | .pybool b => .pybool b
  | .pyint n => .pyint n
  | .pyrat q => .pyrat q
  | .pystr s => .pystr s
  | .pylist xs => .pylist (normalizeValList xs)
  | .pydict kvs => .pydict (normalizeValKVs kvs)

def normalizeValList : List PyVal → List PyVal
  | [] => []
  | x :: xs => normalize_value x :: normalizeValList xs

def normalizeValKVs : List (String × PyVal) → List (String × PyVal)
  | [] => []
  | kv :: kvs => (kv.1, normalize_value kv.2) :: normalizeValKVs kvs
end

/-- Document payload normalization (main.py lines 609-640, dict case). -/
def doc_to_dict (d : Dict) : Dict := d.map (fun kv => (kv.1, normalize_value kv.2))

/-- Product retrieval: get_raw_products_from_rag (main.py lines 559-727,
identical in get_products_from_RAG.py).  Client construction and the two
search attempts are oracles; a semantic attempt that raises or returns no
results falls through to the simple attempt, whose failure yields the empty
list. -/
def get_raw_products_from_rag (init : Bool) (semantic simple : SearchOutcome)
    (destination season_hint : Option String) (weather : Option Dict)
    (recommend_outfits_arg : PyVal) (user_prompt : Option String)
    (top_k : Nat) : List Dict :=
  if !init then []
  else
    let _composite := build_composite_query destination season_hint weather
      recommend_outfits_arg user_prompt
    let simpleRes :=
      match simple with
      | .returns l => l
      | .raises => []
    let results :=
      match semantic with
      | .returns l => if !l.isEmpty then l else simpleRes
      | .raises => simpleRes
    (results.take top_k).map doc_to_dict

/-- Travel intent as produced by the intent-extraction stage
(parse_travel_intent in main.py lines 194-394 returns exactly these keys).
The extractor mixes regex heuristics, the system clock and an LLM call; the
spec designates it an external collaborator, so it is an oracle here. -/
structure Intent where
  destination : Option String
  start_date : Option String
  end_date : Option String
  duration_days : Option Int
  season_hint : Option String
  raw_prompt : String

/-- The six pipeline stages of generate_travel_recommendation. -/
inductive Stage where
  | intentStage
  | weatherStage
  | eventsStage
  | outfitStage
  | ragStage
  | synthStage
deriving DecidableEq, BEq

/-- All external collaborators of one pipeline run. -/
structure Oracles where
  intentExtractor : String → Intent
  geocode : String → Option Geo
  weatherFetch : FetchResult
  today : Date
  tmKey : Option String
  tmHttp : TMHttp
  searchInit : Bool
  semanticSearch : SearchOutcome
  simpleSearch : SearchOutcome
  planLLM : Intent → Dict → List Dict → OutfitRec → List Dict → Except String String

/-- The outfit dict handed to retrieval and synthesis (the return value of
recommend_outfits, main.py line 1063, as a Python dict). -/
def outfitRecToPy (r : OutfitRec) : PyVal :=
  .pydict [
    ("outdoor_wears", .pyint r.outdoor_wears),
    ("dinner_wears", .pyint r.dinner_wears),
    ("activity_wears", .pyint r.activity_wears),
    ("total_wears", .pyint r.total_wears),
    ("assumptions", .pylist (r.assumptions.map .pystr)),
    ("explanation", .pystr r.explanation)]

/-- The pipeline orchestrator: generate_travel_recommendation (main.py lines
1010-1113).  The body is straight-line: it validates nothing, runs the six
stages unconditionally in order, and returns the synthesized plan (or the
error-message string that generate_formal_plan substitutes when the final
LLM call raises, main.py lines 809-826).  The second component is the
ordered list of stages the run performs. -/
def generate_travel_recommendation (o : Oracles) (user_prompt : String) :
    String × List Stage :=
  let parsed_intent := o.intentExtractor user_prompt
  let weather := get_weather_context o.geocode o.weatherFetch o.today
    parsed_intent.destination parsed_intent.start_date parsed_intent.end_date
  let events := (get_local_events o.tmKey o.geocode o.tmHttp
    parsed_intent.destination parsed_intent.start_date parsed_intent.end_date 50).1
  let activities_list := deriveActivities (events.map PyVal.pydict) user_prompt
  let outfit_recommendations := recommend_outfits activities_list
    parsed_intent.duration_days (some "balanced") none false
    (some weather) (some (events.map PyVal.pydict)) none none
  let products := get_raw_products_from_rag o.searchInit o.semanticSearch
    o.simpleSearch parsed_intent.destination parsed_intent.season_hint
    (some weather) (outfitRecToPy outfit_recommendations) (some user_prompt) 5
  let plan :=
    match o.planLLM parsed_intent weather events outfit_recommendations products with
    | .ok s => s
    | .error e => "Error generating plan: " ++ e
  (plan, [Stage.intentStage, Stage.weatherStage, Stage.eventsStage,
          Stage.outfitStage, Stage.ragStage, Stage.synthStage])

/-- A concrete collaborator assignment on which every external call fails or
returns nothing, for evaluating the pipeline at concrete inputs. -/
def trivialOracles : Oracles where
  intentExtractor := fun p => ⟨none, none, none, none, none, p⟩
  geocode := fun _ => none
  weatherFetch := .raises
  today := ⟨2026, 1, 1⟩
  tmKey := none
  tmHttp := .raises
  searchInit := false
  semanticSearch := .raises
  simpleSearch := .raises
  planLLM := fun _ _ _ _ _ => .error "timeout"

/-- Predicate: the activity value is a dict whose "type" equals t. -/
def activityTypeIs (t : String) (a : PyVal) : Bool :=
  pyEqStrB (dictGet (asDict a) "type") t

/-- The stage sequence of one full pipeline run. -/
def fullStageList : List Stage :=
  [Stage.intentStage, Stage.weatherStage, Stage.eventsStage,
   Stage.outfitStage, Stage.ragStage, Stage.synthStage]

/-- A concrete geocoder oracle that resolves every query to Paris. -/
def parisGeocoder : String → Option Geo :=
  fun _ => some ⟨some 48, some 2, some "Paris", some "Ile-de-France"⟩

/-- A concrete Ticketmaster payload event carrying only a start date: no
name, no info, no pleaseNote. -/
def witnessEventPayload : Dict :=
  [("dates", .pydict [("start", .pydict [("localDate", .pystr "2026-06-01")])])]

/- Helper lemmas (shared across claims). -/

theorem pyOr_pynone (b : PyVal) : pyOr .pynone b = b := rfl

theorem pyOr_assoc (a b c : PyVal) : pyOr (pyOr a b) c = pyOr a (pyOr b c) := by
  unfold pyOr
  by_cases ha : truthy a = true
  · simp [ha]
  · rw [Bool.not_eq_true] at ha
    simp [ha]

theorem applyClimateAdj_fst (c : Option String) (o d a : Int) :
    (applyClimateAdj c o d a).1 = o := by
  unfold applyClimateAdj
  split_ifs
  all_goals rfl

theorem applyIntentionAdj_fst_ge (i : String) (D o d a : Int) (h : 1 ≤ o) :
    1 ≤ (applyIntentionAdj i D o d a).1 := by
  unfold applyIntentionAdj
  split_ifs <;> simp <;> omega

theorem applyLaundryAdj_fst_ge (l : Bool) (o d a : Int) (h : 1 ≤ o) :
    1 ≤ (applyLaundryAdj l o d a).1 := by
  unfold applyLaundryAdj
  split_ifs <;> simp <;> omega

theorem chainRest_fst_ge (c : Option String) (i : String) (l : Bool) (D o₂ d₁ a₁ : Int)
    (h : 1 ≤ o₂) :
    1 ≤ max 0 (applyLaundryAdj l
      (applyIntentionAdj i D (applyClimateAdj c o₂ d₁ a₁).1
        (applyClimateAdj c o₂ d₁ a₁).2.1 (applyClimateAdj c o₂ d₁ a₁).2.2).1
      (applyIntentionAdj i D (applyClimateAdj c o₂ d₁ a₁).1
        (applyClimateAdj c o₂ d₁ a₁).2.1 (applyClimateAdj c o₂ d₁ a₁).2.2).2.1
      (applyIntentionAdj i D (applyClimateAdj c o₂ d₁ a₁).1
        (applyClimateAdj c o₂ d₁ a₁).2.1 (applyClimateAdj c o₂ d₁ a₁).2.2).2.2).1 := by
  set t3 := applyClimateAdj c o₂ d₁ a₁ with ht3
  have h3 : t3.1 = o₂ := by rw [ht3]; exact applyClimateAdj_fst c o₂ d₁ a₁
  rw [h3]
  set t4 := applyIntentionAdj i D o₂ t3.2.1 t3.2.2 with ht4
  have h4 : 1 ≤ t4.1 := by rw [ht4]; exact applyIntentionAdj_fst_ge i D o₂ t3.2.1 t3.2.2 h
  have h5 := applyLaundryAdj_fst_ge l t4.1 t4.2.1 t4.2.2 h4
  omega

theorem outfitCore_fst_ge (oe de ae D : Int) (c : Option String) (i : String)
    (l : Bool) (hD : 1 ≤ D) : 1 ≤ (outfitCore oe de ae D c i l).1 := by
  have h2 : 1 ≤ (if max oe D < D then D else max oe D) := by split_ifs <;> omega
  exact chainRest_fst_ge c i l D _ _ _ h2

theorem effectiveDurationRule_ge (dd : Option Int) (l : List PyVal)
    (h : dd = none ∨ ∃ dv, dd = some dv ∧ 1 ≤ dv) :
    1 ≤ effectiveDurationRule dd l := by
  rcases h with h | ⟨dv, h, hdv⟩ <;> subst h
  · simp only [effectiveDurationRule]
    split_ifs <;> omega
  · simpa [effectiveDurationRule] using hdv

theorem weatherClauseFields_eq (w : Dict) :
    weatherClauseFields w = specWeatherFields w := by
  unfold weatherClauseFields specWeatherFields
  dsimp only
  by_cases h1 : isNone (dictGet w "avg_high_c") <;>
    by_cases h2 : isNone (dictGet w "avg_low_c") <;>
      by_cases h3 : isNone (dictGet w "precipitation_chance") <;>
        by_cases h4 : truthy (dictGet w "condition") <;>
          simp [h1, h2, h3, h4]

/-- C1: the claim states that an empty request returns an immediate
empty-input response without invoking any pipeline stage.  Counterexample:
on the empty request string the orchestrator still performs the full
six-stage sequence, starting with intent extraction, so stages are invoked
and no empty-input short-circuit exists. -/
theorem c1_empty_request_counterexample :
    (generate_travel_recommendation trivialOracles "").2 = fullStageList ∧
    (generate_travel_recommendation trivialOracles "").2 ≠ [] :=
  ⟨rfl, by decide⟩

/-- C1 (amended): generate_travel_recommendation performs no empty-input
validation; for every request string, including empty or whitespace-only
ones, it runs all six stages (intent extraction, weather fetch, events
fetch, outfit planning, product retrieval, plan synthesis) in order. -/
theorem c1_pipeline_always_runs_all_stages (o : Oracles) (p : String) :
    (generate_travel_recommendation o p).2 = fullStageList := rfl

/-- C2: the claim states that a raising weather fetch yields a summary with
data_source "error" and a non-null error string.  Counterexample: with a
successful geocode and a weather HTTP call that raises (for example a
timeout), get_weather_context returns the climatology fallback, whose
data_source is "climatology" and whose error field is None. -/
theorem c2_weather_timeout_counterexample :
    dictGet (get_weather_context parisGeocoder .raises ⟨2026, 4, 1⟩
      (some "Paris") (some "2026-05-01") (some "2026-05-03")) "data_source" =
      .pystr "climatology" ∧
    dictGet (get_weather_context parisGeocoder .raises ⟨2026, 4, 1⟩
      (some "Paris") (some "2026-05-01") (some "2026-05-03")) "error" = .pynone ∧
    dictGet (get_weather_context parisGeocoder .raises ⟨2026, 4, 1⟩
      (some "Paris") (some "2026-05-01") (some "2026-05-03")) "data_source" ≠
      .pystr "error" := by
  refine ⟨rfl, rfl, fun h => ?_⟩
  have h2 : PyVal.pystr "climatology" = PyVal.pystr "error" :=
    (rfl : dictGet (get_weather_context parisGeocoder .raises ⟨2026, 4, 1⟩
      (some "Paris") (some "2026-05-01") (some "2026-05-03")) "data_source" =
      .pystr "climatology").symm.trans h
  simp at h2

/-- C2 (amended): a missing destination or a failed geocode yields a
WeatherSummary with data_source "error" and a non-null error string; a
raising weather HTTP fetch instead yields the climatology fallback with
data_source "climatology" and error None; in every case the pipeline still
runs the events, outfit, retrieval and synthesis stages without aborting. -/
theorem c2_weather_failure_modes (geocode : String → Option Geo) (fetch : FetchResult)
    (today : Date) (dest sd ed : Option String) :
    (truthyOS dest = false →
      dictGet (get_weather_context geocode fetch today dest sd ed) "data_source" = .pystr "error" ∧
      dictGet (get_weather_context geocode fetch today dest sd ed) "error" ≠ .pynone)
    ∧ (truthyOS dest = true → geocode (getS dest) = none →
      dictGet (get_weather_context geocode fetch today dest sd ed) "data_source" = .pystr "error" ∧
      dictGet (get_weather_context geocode fetch today dest sd ed) "error" ≠ .pynone)
    ∧ (truthyOS dest = true → ∀ g, geocode (getS dest) = some g → fetch = .raises →
      dictGet (get_weather_context geocode fetch today dest sd ed) "data_source" = .pystr "climatology" ∧
      dictGet (get_weather_context geocode fetch today dest sd ed) "error" = .pynone)
    ∧ (∀ (o : Oracles) (p : String), (generate_travel_recommendation o p).2 = fullStageList) := by
  refine ⟨fun h => ?_, fun h hg => ?_, fun h g hg hf => ?_, fun _ _ => rfl⟩
  · simp [get_weather_context, h, dictGet]
  · simp [get_weather_context, h, hg, dictGet]
  · subst hf
    cases sd with
    | none => simp [get_weather_context, h, hg, weatherClimatologyDict, dictGet]
    | some s =>
      cases hp : parseDate s <;>
        simp [get_weather_context, h, hg, hp, weatherClimatologyDict, dictGet]

/-- Witness for C2 (amended): the no-destination case returns the error
summary, and the Paris run with a raising fetch returns the climatology
summary with a None error. -/
theorem c2_weather_failure_modes_witness :
    (dictGet (get_weather_context parisGeocoder .raises ⟨2026, 4, 1⟩
        none none none) "data_source" = .pystr "error" ∧
     dictGet (get_weather_context parisGeocoder .raises ⟨2026, 4, 1⟩
        none none none) "error" ≠ .pynone) ∧
    (dictGet (get_weather_context parisGeocoder .raises ⟨2026, 4, 1⟩
        (some "Paris") (some "2026-05-01") (some "2026-05-03")) "data_source" =
        .pystr "climatology" ∧
     dictGet (get_weather_context parisGeocoder .raises ⟨2026, 4, 1⟩
        (some "Paris") (some "2026-05-01") (some "2026-05-03")) "error" = .pynone) :=
  ⟨(c2_weather_failure_modes parisGeocoder .raises ⟨2026, 4, 1⟩ none none none).1 rfl,
   (c2_weather_failure_modes parisGeocoder .raises ⟨2026, 4, 1⟩
      (some "Paris") (some "2026-05-01") (some "2026-05-03")).2.2.1 rfl
      ⟨some 48, some 2, some "Paris", some "Ile-de-France"⟩ rfl rfl⟩

/-- C3: with an empty events list, if the lowercased request contains
"dinner" or "party" the derived activity list has exactly one dinner-type
activity; if it additionally contains a hike-group keyword it is exactly the
dinner activity followed by the hike activity; if it contains neither
keyword group it is empty. -/
theorem c3_keyword_fallback_activities (p : String) :
    ((containsSub (lowerStr p) "dinner" || containsSub (lowerStr p) "party") = true →
      (deriveActivities [] p).countP (activityTypeIs "dinner") = 1)
    ∧ ((containsSub (lowerStr p) "dinner" || containsSub (lowerStr p) "party") = true →
       (hikeKeywords.any (fun k => containsSub (lowerStr p) k)) = true →
       deriveActivities [] p =
         [.pydict [("type", .pystr "dinner")], .pydict [("type", .pystr "hike")]])
    ∧ ((containsSub (lowerStr p) "dinner" || containsSub (lowerStr p) "party") = false →
       (hikeKeywords.any (fun k => containsSub (lowerStr p) k)) = false →
       deriveActivities [] p = []) := by
  refine ⟨fun h1 => ?_, fun h1 h2 => ?_, fun h1 h2 => ?_⟩
  · by_cases hB : (hikeKeywords.any (fun k => containsSub (lowerStr p) k)) = true
    · simp only [deriveActivities, List.map_nil, List.isEmpty_nil, if_true, h1, hB]
      decide
    · rw [Bool.not_eq_true] at hB
      simp only [deriveActivities, List.map_nil, List.isEmpty_nil, if_true, h1, hB]
      decide
  · simp [deriveActivities, h1, h2]
  · simp [deriveActivities, h1, h2]

/-- Witness for C3 at the request "dinner hike". -/
theorem c3_keyword_fallback_activities_witness :
    (deriveActivities [] "dinner hike").countP (activityTypeIs "dinner") = 1 ∧
    deriveActivities [] "dinner hike" =
      [.pydict [("type", .pystr "dinner")], .pydict [("type", .pystr "hike")]] :=
  ⟨(c3_keyword_fallback_activities "dinner hike").1 (by decide),
   (c3_keyword_fallback_activities "dinner hike").2.1 (by decide) (by decide)⟩

/-- C4: when the events list is non-empty, the derived activity list is
exactly the one-per-event map (so the keyword fallback contributes nothing)
and its length equals the event count. -/
theorem c4_events_suppress_keyword_fallback (events : List PyVal) (p : String)
    (h : events ≠ []) :
    deriveActivities events p = events.map activityOfEvent ∧
    (deriveActivities events p).length = events.length := by
  have hne : (events.map activityOfEvent).isEmpty = false := by
    cases events with
    | nil => exact absurd rfl h
    | cons a l => rfl
  constructor
  · simp [deriveActivities, hne]
  · simp [deriveActivities, hne]

/-- Witness for C4: one event, with a prompt that would otherwise fire both
keyword groups. -/
theorem c4_events_suppress_keyword_fallback_witness :
    deriveActivities [.pydict [("title", .pystr "Jazz Night")]] "dinner and hike" =
      [.pydict [("title", .pystr "Jazz Night")]].map activityOfEvent ∧
    (deriveActivities [.pydict [("title", .pystr "Jazz Night")]] "dinner and hike").length =
      [PyVal.pydict [("title", .pystr "Jazz Night")]].length :=
  c4_events_suppress_keyword_fallback [.pydict [("title", .pystr "Jazz Night")]]
    "dinner and hike" (List.cons_ne_nil _ _)

/-- C5: for every record of the events list (every output of
buildEventRecord), the derived activity takes its type from the first
non-empty title-like field in the priority order title, summary, description
(the record never carries a "name" key, and its "summary" lookup is always
None), with the literal placeholder "outing" when all of them are empty, and
takes its date from the record's start field (None when start is absent or
empty). -/
theorem c5_one_activity_per_event_record (e : Dict) :
    activityOfEventDict (buildEventRecord e) =
      .pydict [("type", pyOr (dictGet (buildEventRecord e) "title")
                  (pyOr (dictGet (buildEventRecord e) "summary")
                    (pyOr (dictGet (buildEventRecord e) "description") (.pystr "outing")))),
               ("date", pyOr (dictGet (buildEventRecord e) "start") .pynone)]
    ∧ (truthy (dictGet (buildEventRecord e) "start") = true →
        dictGet (asDict (activityOfEventDict (buildEventRecord e))) "date" =
          dictGet (buildEventRecord e) "start")
    ∧ (truthy (dictGet (buildEventRecord e) "title") = false →
       truthy (dictGet (buildEventRecord e) "description") = false →
        dictGet (asDict (activityOfEventDict (buildEventRecord e))) "type" = .pystr "outing") := by
  have hname : dictGet (buildEventRecord e) "name" = .pynone := rfl
  have hsum : dictGet (buildEventRecord e) "summary" = .pynone := rfl
  have hdate : dictGet (buildEventRecord e) "date" = .pynone := rfl
  have hsd : dictGet (buildEventRecord e) "start_date" = .pynone := rfl
  refine ⟨?_, ?_, ?_⟩
  · unfold activityOfEventDict
    rw [hname, hsum, hdate, hsd]
    simp only [pyOr_pynone, pyOr_assoc]
  · intro h
    unfold activityOfEventDict
    show pyOr (dictGet (buildEventRecord e) "date")
      (pyOr (dictGet (buildEventRecord e) "start") (dictGet (buildEventRecord e) "start_date")) = _
    rw [hdate, hsd, pyOr_pynone]
    unfold pyOr
    rw [h]
    rfl
  · intro h1 h2
    unfold activityOfEventDict
    show pyOr (pyOr (dictGet (buildEventRecord e) "name")
      (pyOr (dictGet (buildEventRecord e) "title")
        (pyOr (dictGet (buildEventRecord e) "summary")
          (dictGet (buildEventRecord e) "description")))) (.pystr "outing") = _
    rw [hname, hsum]
    simp only [pyOr_pynone]
    simp [pyOr, h1, h2]

/-- Witness for C5: a payload event with a start date and no title-like
fields yields the "outing" placeholder and keeps the start date. -/
theorem c5_one_activity_per_event_record_witness :
    dictGet (asDict (activityOfEventDict (buildEventRecord witnessEventPayload))) "date" =
      dictGet (buildEventRecord witnessEventPayload) "start" ∧
    dictGet (asDict (activityOfEventDict (buildEventRecord witnessEventPayload))) "type" =
      .pystr "outing" :=
  ⟨(c5_one_activity_per_event_record witnessEventPayload).2.1 (by decide),
   (c5_one_activity_per_event_record witnessEventPayload).2.2 (by decide) (by decide)⟩

/-- C6: the composite retrieval query is the " | "-join of, in fixed order,
the non-empty parts destination, season hint, the weather clause over the
present fields among avg_high_c, avg_low_c, precipitation_chance and
condition, the serialized outfit recommendation and the raw user prompt,
followed by the constant catch-all clause; and two calls with identical
destination, season hint, weather dict, outfit recommendation and prompt
produce byte-identical query strings. -/
theorem c6_composite_query_deterministic_structure (d s : Option String)
    (w : Option Dict) (ro : PyVal) (up : Option String) :
    build_composite_query d s w ro up = String.intercalate " | " (specQueryParts d s w ro up)
    ∧ (∀ (d₂ s₂ : Option String) (w₂ : Option Dict) (ro₂ : PyVal) (up₂ : Option String),
        d = d₂ → s = s₂ → w = w₂ → ro = ro₂ → up = up₂ →
        build_composite_query d s w ro up = build_composite_query d₂ s₂ w₂ ro₂ up₂) := by
  constructor
  · unfold build_composite_query specQueryParts specWeatherClause
    simp only [weatherClauseFields_eq]
    cases w with
    | none =>
      by_cases hd : truthyOS d <;> by_cases hs : truthyOS s <;>
        by_cases hr : truthy ro <;> by_cases hu : truthyOS up <;>
          simp [hd, hs, hr, hu]
    | some wd =>
      by_cases hd : truthyOS d <;> by_cases hs : truthyOS s <;>
        by_cases hr : truthy ro <;> by_cases hu : truthyOS up <;>
          by_cases hw : wd.isEmpty <;>
            by_cases hf : (specWeatherFields wd).isEmpty <;>
              simp [hd, hs, hr, hu, hw, hf]
  · intro d₂ s₂ w₂ ro₂ up₂ h1 h2 h3 h4 h5
    subst h1; subst h2; subst h3; subst h4; subst h5
    rfl

/-- Witness for C6 at a concrete argument tuple. -/
theorem c6_composite_query_deterministic_structure_witness :
    build_composite_query (some "Miami") none
      (some [("avg_high_c", .pyrat (249/10))]) (.pystr "1 outfit per day")
      (some "beach trip") =
      String.intercalate " | " (specQueryParts (some "Miami") none
        (some [("avg_high_c", .pyrat (249/10))]) (.pystr "1 outfit per day")
        (some "beach trip")) ∧
    build_composite_query (some "Miami") none
      (some [("avg_high_c", .pyrat (249/10))]) (.pystr "1 outfit per day")
      (some "beach trip") =
      build_composite_query (some "Miami") none
        (some [("avg_high_c", .pyrat (249/10))]) (.pystr "1 outfit per day")
        (some "beach trip") :=
  ⟨(c6_composite_query_deterministic_structure (some "Miami") none
      (some [("avg_high_c", .pyrat (249/10))]) (.pystr "1 outfit per day")
      (some "beach trip")).1,
   (c6_composite_query_deterministic_structure (some "Miami") none
      (some [("avg_high_c", .pyrat (249/10))]) (.pystr "1 outfit per day")
      (some "beach trip")).2 (some "Miami") none
      (some [("avg_high_c", .pyrat (249/10))]) (.pystr "1 outfit per day")
      (some "beach trip") rfl rfl rfl rfl rfl⟩

/-- C7: when the LLM-based outfit generation fails (the call raises or its
output is unparseable), recommend_outfits_llm returns exactly the
deterministic arithmetic-heuristic recommendation, which always carries the
four non-negative counts with a total equal to their sum; and every pipeline
run performs the outfit planning stage exactly once. -/
theorem c7_outfit_fallback_never_null (activities : List PyVal) (dd : Option Int)
    (intention climate : Option String) (laundry : Bool) :
    recommend_outfits_llm none activities dd intention climate laundry =
      outfitFallbackHeuristic activities dd intention climate laundry
    ∧ (∃ ow dw aw : Int,
        (dictGet (asDict (dictGet (asDict (recommend_outfits_llm none activities dd intention climate laundry)) "outfit_counts")) "outdoor_wears" = .pyint ow ∧
         dictGet (asDict (dictGet (asDict (recommend_outfits_llm none activities dd intention climate laundry)) "outfit_counts")) "dinner_wears" = .pyint dw ∧
         dictGet (asDict (dictGet (asDict (recommend_outfits_llm none activities dd intention climate laundry)) "outfit_counts")) "activity_wears" = .pyint aw ∧
         dictGet (asDict (dictGet (asDict (recommend_outfits_llm none activities dd intention climate laundry)) "outfit_counts")) "total_wears" = .pyint (ow + dw + aw)) ∧
        0 ≤ ow ∧ 0 ≤ dw ∧ 0 ≤ aw)
    ∧ (∀ (o : Oracles) (p : String),
        ((generate_travel_recommendation o p).2.count Stage.outfitStage) = 1) := by
  refine ⟨rfl, ⟨_, _, _, ⟨rfl, rfl, rfl, rfl⟩, le_max_right _ _, le_max_right _ _,
    le_max_right _ _⟩, fun _ _ => rfl⟩

/-- C8: product retrieval returns at most top_k documents, and returns the
empty list when the search client cannot be constructed or when both the
semantic and the simple attempt raise; an empty list is an ordinary return
value, not an error. -/
theorem c8_rag_bounded_and_fail_closed (init : Bool) (semantic simple : SearchOutcome)
    (d s : Option String) (w : Option Dict) (ro : PyVal) (up : Option String)
    (top_k : Nat) :
    (get_raw_products_from_rag init semantic simple d s w ro up top_k).length ≤ top_k
    ∧ (init = false → get_raw_products_from_rag init semantic simple d s w ro up top_k = [])
    ∧ (semantic = .raises → simple = .raises →
        get_raw_products_from_rag init semantic simple d s w ro up top_k = []) := by
  refine ⟨?_, fun h => ?_, fun h1 h2 => ?_⟩
  · unfold get_raw_products_from_rag
    split_ifs with hinit
    · simp
    · simp only [List.length_map, List.length_take]
      omega
  · subst h
    simp [get_raw_products_from_rag]
  · subst h1; subst h2
    unfold get_raw_products_from_rag
    split_ifs <;> simp

/-- Witness for C8 with a failed client construction and raising searches. -/
theorem c8_rag_bounded_and_fail_closed_witness :
    (get_raw_products_from_rag false .raises .raises none none none .pynone none 5).length ≤ 5 ∧
    get_raw_products_from_rag false .raises .raises none none none .pynone none 5 = [] :=
  ⟨(c8_rag_bounded_and_fail_closed false .raises .raises none none none .pynone none 5).1,
   (c8_rag_bounded_and_fail_closed false .raises .raises none none none .pynone none 5).2.1 rfl⟩

/-- C9: for every activities list and every duration_days that is None or a
positive integer (other arguments arbitrary), the rule-based
recommend_outfits returns non-negative outdoor, dinner and activity counts
whose sum is exactly total_wears, with at least one outdoor wear. -/
theorem c9_rule_planner_count_invariants (activities : List PyVal) (dd : Option Int)
    (intention climate : Option String) (laundry : Bool) (weather : Option Dict)
    (events : Option (List PyVal)) (sp um : Option String)
    (h : dd = none ∨ ∃ dv, dd = some dv ∧ 1 ≤ dv) :
    0 ≤ (recommend_outfits activities dd intention climate laundry weather events sp um).outdoor_wears ∧
    0 ≤ (recommend_outfits activities dd intention climate laundry weather events sp um).dinner_wears ∧
    0 ≤ (recommend_outfits activities dd intention climate laundry weather events sp um).activity_wears ∧
    (recommend_outfits activities dd intention climate laundry weather events sp um).total_wears =
      (recommend_outfits activities dd intention climate laundry weather events sp um).outdoor_wears +
      (recommend_outfits activities dd intention climate laundry weather events sp um).dinner_wears +
      (recommend_outfits activities dd intention climate laundry weather events sp um).activity_wears ∧
    1 ≤ (recommend_outfits activities dd intention climate laundry weather events sp um).outdoor_wears := by
  refine ⟨le_max_left 0 _, le_max_left 0 _, le_max_left 0 _, rfl, ?_⟩
  exact outfitCore_fst_ge _ _ _ _ _ _ _ (effectiveDurationRule_ge _ _ h)

/-- Witness for C9 at a one-activity list and a three-day duration. -/
theorem c9_rule_planner_count_invariants_witness :
    0 ≤ (recommend_outfits [.pystr "hike"] (some 3) (some "balanced") none false none none none none).outdoor_wears ∧
    0 ≤ (recommend_outfits [.pystr "hike"] (some 3) (some "balanced") none false none none none none).dinner_wears ∧
    0 ≤ (recommend_outfits [.pystr "hike"] (some 3) (some "balanced") none false none none none none).activity_wears ∧
    (recommend_outfits [.pystr "hike"] (some 3) (some "balanced") none false none none none none).total_wears =
      (recommend_outfits [.pystr "hike"] (some 3) (some "balanced") none false none none none none).outdoor_wears +
      (recommend_outfits [.pystr "hike"] (some 3) (some "balanced") none false none none none none).dinner_wears +
      (recommend_outfits [.pystr "hike"] (some 3) (some "balanced") none false none none none none).activity_wears ∧
    1 ≤ (recommend_outfits [.pystr "hike"] (some 3) (some "balanced") none false none none none none).outdoor_wears :=
  c9_rule_planner_count_invariants [.pystr "hike"] (some 3) (some "balanced") none false
    none none none none (Or.inr ⟨3, rfl, by decide⟩)

/-- C10: when the destination is None or empty, or the TICKETMASTER_KEY
environment variable is unset, get_local_events returns the empty event list
and the empty network-request log: neither the geocoder nor the Ticketmaster
endpoint is contacted. -/
theorem c10_events_guard_no_network (tmKey : Option String)
    (geocode : String → Option Geo) (http : TMHttp) (dest sd ed : Option String)
    (r : Int) (h : truthyOS dest = false ∨ tmKey = none) :
    get_local_events tmKey geocode http dest sd ed r = ([], []) := by
  rcases h with h | h
  · simp [get_local_events, h]
  · subst h
    by_cases hd : truthyOS dest <;> simp [get_local_events, hd]

/-- Witness for C10: a set API key with a missing destination performs no
network request. -/
theorem c10_events_guard_no_network_witness :
    get_local_events (some "APIKEY") (fun _ => none) .raises none
      (some "2026-01-01") none 50 = ([], []) :=
  c10_events_guard_no_network (some "APIKEY") (fun _ => none) .raises none
    (some "2026-01-01") none 50 (Or.inl rfl)
